import Mathlib

/-!
Shallow embedding of the NeuraAI Hyperluxe gateway (src/main.py): the AI
reply orchestration chain (generate_ai_reply and its three reply source
adapters), the fallback responder (simple_fallback_reply), the event
recorder (append_event, append_event_file, append_event_db), the chat
endpoint handler (chat_endpoint) and the admin token guard (require_admin).

External collaborators — network calls issued through proxy_post, the
SQLAlchemy database session, the process clock, and the optional local
Python modules probed at import time — are modelled as oracle fields of
environment records; the control flow of each Python function is embedded
directly.  Every Python function embedded here wraps its fallible body in
try/except, so the embedded functions are total: a caught exception is
modelled by the corresponding oracle reporting failure.  Side effects
(adapter invocations, database inserts, file appends, TTS calls) are made
observable as an explicit effect trace returned next to each result.
Python str.lower, str.strip, str.startswith, slicing and the substring
test are modelled by the character-list functions strLower, strStrip,
strStartsWith, strDrop and strContains below.
-/

namespace NeuraAI

/-- Python str.lower per character, on the ASCII range the source's
keyword matching relies on. -/
def charLower (c : Char) : Char :=
  if 65 <= c.toNat && c.toNat <= 90 then Char.ofNat (c.toNat + 32) else c

/-- Python str.lower over a whole string. -/
def strLower (s : String) : String :=
  String.mk (s.data.map charLower)

/-- Python str.isspace for the whitespace class str.strip removes. -/
def isSpace (c : Char) : Bool :=
  c == ' ' || c == '\t' || c == '\n' || c == '\r' ||
    c.toNat == 11 || c.toNat == 12

/-- Python str.strip: whitespace removed from both ends. -/
def strStrip (s : String) : String :=
  String.mk (((s.data.dropWhile isSpace).reverse.dropWhile isSpace).reverse)

/-- Python str.startswith. -/
def strStartsWith (s p : String) : Bool :=
  p.data.isPrefixOf s.data

/-- Python slicing s[n:], character based. -/
def strDrop (s : String) (n : Nat) : String :=
  String.mk (s.data.drop n)

/-- Contiguous occurrence of the needle at some suffix start position. -/
def infixAt (n : List Char) : List Char → Bool
  | [] => n.isEmpty
  | c :: cs => n.isPrefixOf (c :: cs) || infixAt n cs

/-- Python substring membership test, needle in hay, over the character
sequences of the two strings. -/
def strContains (hay needle : String) : Bool :=
  infixAt needle.data hay.data

/-- A JSON-ish result dictionary as produced by the reply source adapters
and by proxy_post: the ok flag plus the optional reply and error fields. -/
structure RDict where
  ok : Bool
  reply : Option String
  error : Option String
deriving DecidableEq, Repr

/-- Environment of simple_fallback_reply: the formatted UTC clock reading
produced by datetime.utcnow().strftime (main.py line 352) and the optional
crypto summary (some s when the local_ai module exposes crypto_summary and
the call returns s; none when the module or attribute is missing or the
call raises, main.py lines 356-360). -/
structure FBEnv where
  now : String
  cryptoSummary : Option String
deriving DecidableEq, Repr

/-- The ASCII apostrophe character as a one-character string. -/
def sq : String := String.singleton (Char.ofNat 39)

/-- The canned greeting returned by the first branch of
simple_fallback_reply (main.py line 350). -/
def greetingText : String :=
  "Hello — I" ++ sq ++ "m NeuraAI Hyperluxe. Try asking " ++ sq ++
    "recommend a book" ++ sq ++ " or " ++ sq ++ "play a game" ++ sq ++ "."

/-- simple_fallback_reply (main.py lines 347-362): keyword cascade over the
lowercased prompt.  The time branch interpolates the clock reading and the
crypto branch consults the optional crypto module, both taken from the
environment. -/
def simple_fallback_reply (env : FBEnv) (prompt : String) : String :=
  let p := strLower prompt
  if strContains p "hello" || (strStrip p == "hi" || strStrip p == "hey") then
    greetingText
  else if strContains p "time" then
    "Server time: " ++ env.now
  else if strContains p "health" then
    "I can help with basic health advice. Use /api/health/check with symptoms."
  else if strContains p "crypto" then
    env.cryptoSummary.getD
      "Connect a crypto insights module to get live market advice."
  else
    "Interesting — tell me more."

/-- The three reply source adapters of the orchestration chain. -/
inductive AdapterCall where
  | micro
  | localM
  | openai
deriving DecidableEq, Repr

/-- Environment of the orchestrator: microConfigured models AI_SERVICE_URL
being set; micro n is the JSON returned by the nth microservice POST of the
request (proxy_post catches every transport error and returns an RDict, so
the oracle is total); localModule is none when the local_ai module is
absent and otherwise carries the outcome of the attribute probing and call
in ai_call_local_module, whose try/except makes it total; openaiRes is the
outcome of ai_call_openai, whose nested try/except chain over the two
provider request shapes likewise always produces an RDict. -/
structure AIEnv where
  microConfigured : Bool
  micro : Nat → RDict
  localModule : Option RDict
  openaiRes : RDict
  fb : FBEnv

/-- ai_call_microservice (main.py lines 234-241): canned no_microservice
failure when AI_SERVICE_URL is unset, otherwise the microservice response
for this (idx-th) call. -/
def ai_call_microservice (env : AIEnv) (idx : Nat) : RDict :=
  if env.microConfigured then env.micro idx
  else { ok := false, reply := none, error := some "no_microservice" }

/-- ai_call_local_module (main.py lines 243-262): canned no_local_ai
failure when the module is absent, otherwise the probed call outcome. -/
def ai_call_local_module (env : AIEnv) : RDict :=
  match env.localModule with
  | none => { ok := false, reply := none, error := some "no_local_ai" }
  | some r => r

/-- ai_call_openai (main.py lines 264-311): outcome of the provider call
chain, which catches every exception internally. -/
def ai_call_openai (env : AIEnv) : RDict :=
  env.openaiRes

/-- generate_ai_reply (main.py lines 313-345): microservice first when the
preference allows it, then the local module, then the provider, then the
microservice once more under the auto preference, finally the fallback
responder wrapped as an ok result.  The second component records which
adapter functions were invoked, in order. -/
def generate_ai_reply (env : AIEnv) (prompt : String) (user : String)
    (prefer : String) : RDict × List AdapterCall :=
  let tryMicro1 := env.microConfigured &&
    (prefer == "microservice" || prefer == "auto")
  let r1 := ai_call_microservice env 0
  if tryMicro1 && r1.ok then (r1, [AdapterCall.micro])
  else
    let t1 : List AdapterCall := if tryMicro1 then [AdapterCall.micro] else []
    let r2 := ai_call_local_module env
    if r2.ok then (r2, t1 ++ [AdapterCall.localM])
    else
      let r3 := ai_call_openai env
      if r3.ok then (r3, t1 ++ [AdapterCall.localM, AdapterCall.openai])
      else
        let tryMicro2 := env.microConfigured && prefer == "auto"
        let r4 := ai_call_microservice env 1
        if tryMicro2 && r4.ok then
          (r4, t1 ++ [AdapterCall.localM, AdapterCall.openai, AdapterCall.micro])
        else
          let t2 : List AdapterCall :=
            if tryMicro2 then [AdapterCall.micro] else []
          ({ ok := true, reply := some (simple_fallback_reply env.fb prompt),
             error := none },
           t1 ++ [AdapterCall.localM, AdapterCall.openai] ++ t2)

/-- Event payloads: the ai_query payload built by the chat handler
(main.py line 394) and an opaque mapping for other callers. -/
inductive PayloadV where
  | aiQuery (user : String) (prompt : String) (latency : Nat)
  | raw (s : String)
deriving DecidableEq, Repr

/-- One line of the append-only event log, fields type, payload and ts
(main.py line 224; ts is the time.time() reading). -/
structure EventLine where
  type : String
  payload : PayloadV
  ts : Nat
deriving DecidableEq, Repr

/-- Observable side effects of a request: adapter invocations, the ChatLog
database insert, the two event sinks, and TTS collaborator calls.  The ok
flag on a write records whether the underlying physical operation
succeeded (its failure is what the wrapping try/except catches). -/
inductive Effect where
  | adapter (c : AdapterCall)
  | chatLogInsert (user : String) (prompt : String) (response : String) (ok : Bool)
  | fileAppend (line : EventLine) (ok : Bool)
  | dbEventInsert (etype : String) (payload : PayloadV) (ok : Bool)
  | ttsServiceCall
  | ttsLocalCall
deriving DecidableEq, Repr

/-- Recorder environment: whether the physical file append and the
database insert succeed on this call. -/
structure RecEnv where
  fileOk : Bool
  dbOk : Bool
deriving DecidableEq, Repr

/-- append_event_file (main.py lines 215-221): appends one JSON line to
data/events.log; the whole body sits in a try/except that only logs, so
the function never raises regardless of the physical outcome.  The Except
component models a Python exception escaping to the caller. -/
def append_event_file (re : RecEnv) (line : EventLine) :
    Except String Unit × List Effect :=
  (Except.ok (), [Effect.fileAppend line re.fileOk])

/-- append_event_db (main.py lines 205-213): inserts an Event row; the
body sits in a try/except that only logs, so it never raises. -/
def append_event_db (re : RecEnv) (etype : String) (payload : PayloadV) :
    Except String Unit × List Effect :=
  (Except.ok (), [Effect.dbEventInsert etype payload re.dbOk])

/-- append_event (main.py lines 223-228): file line with fields type,
payload, ts first; then the database insert inside try/except pass.  An
exception from append_event_file would propagate (it is not wrapped), one
from append_event_db is swallowed. -/
def append_event (re : RecEnv) (etype : String) (payload : PayloadV)
    (ts : Nat) : Except String Unit × List Effect :=
  let f := append_event_file re { type := etype, payload := payload, ts := ts }
  match f.1 with
  | Except.error e => (Except.error e, f.2)
  | Except.ok _ =>
      let d := append_event_db re etype payload
      (Except.ok (), f.2 ++ d.2)

/-- The credential material of one request to an admin endpoint: the
Authorization header and the admin_token query parameter, each defaulting
to the empty string (main.py line 176). -/
structure AdminReq where
  authHeader : String
  adminTokenArg : String
deriving DecidableEq, Repr

/-- Token extraction of require_admin (main.py lines 176-178): the header,
falling back to the query parameter when the header is empty (Python or),
with a leading Bearer prefix stripped (split on the first space keeps
everything after it, which equals dropping the seven-character prefix). -/
def admin_token_of (req : AdminReq) : String :=
  let tok0 := if req.authHeader == "" then req.adminTokenArg else req.authHeader
  if strStartsWith tok0 "Bearer " then strDrop tok0 7 else tok0

/-- Outcome of the require_admin decorator: run the wrapped handler, or
reject with an HTTP status and an error body. -/
inductive AdminResult where
  | runHandler
  | reject (status : Nat) (ok : Bool) (error : String)
deriving DecidableEq, Repr

/-- require_admin (main.py lines 173-185): when NEURA_ADMIN_TOKEN is the
empty string the wrapped handler runs unconditionally; otherwise a token
mismatch yields 401 unauthorized and a match runs the handler. -/
def require_admin (cfgToken : String) (req : AdminReq) : AdminResult :=
  let token := admin_token_of req
  if cfgToken == "" then AdminResult.runHandler
  else if token != cfgToken then AdminResult.reject 401 false "unauthorized"
  else AdminResult.runHandler

/-- TTS collaborators of the chat handler (main.py lines 399-413):
serviceConfigured models VOICE_SERVICE_URL being set and serviceAudio the
audio field of the proxied speak response (none when the call failed or
the response carried no audio; proxy_post itself never raises); the local
fields model the optional local_voice module with speak_text, whose raise
is caught (none) and whose return value is localAudio otherwise.  The
language and mood hints of the request only parameterize the outgoing TTS
payload and are absorbed into these oracles. -/
structure VoiceEnv where
  serviceConfigured : Bool
  serviceAudio : Option String
  localPresent : Bool
  localAudio : Option String

/-- The audio reference the voice block of the chat handler ends up with
(main.py lines 400-412): the service result when the service is
configured, else the local module result when present, else none. -/
def tts_result (v : VoiceEnv) : Option String :=
  if v.serviceConfigured then v.serviceAudio
  else if v.localPresent then v.localAudio
  else none

/-- Oracles of one chat request that do not concern persistence failures:
the adapter environment, the TTS environment, the measured latency
(round(time.time() - start, 3), an external clock reading) and the
time.time() value recorded in the event line. -/
structure WorldCore where
  ai : AIEnv
  voice : VoiceEnv
  latency : Nat
  ts : Nat

/-- Persistence failure switches of one chat request: whether the ChatLog
insert (main.py lines 384-391) succeeds, and the recorder switches. -/
structure FailFlags where
  chatLogOk : Bool
  recEnv : RecEnv

/-- Full environment of one chat request. -/
structure World where
  core : WorldCore
  fails : FailFlags

/-- The parsed JSON body of a chat request; none models an absent key
(main.py lines 369-373). -/
structure ChatBody where
  message : Option String
  prompt : Option String
  user : Option String
  voice : Bool
  prefer : Option String
deriving DecidableEq, Repr

/-- Python a or b over an optional string: an absent key or an empty
string falls through to the alternative. -/
def pyOr (a : Option String) (b : String) : String :=
  match a with
  | some s => if s == "" then b else s
  | none => b

/-- The JSON response of the chat endpoint.  audio is none when the key is
absent from the response object and some a when present with value a,
where a itself is none for a JSON null. -/
structure ChatResponse where
  status : Nat
  ok : Bool
  error : Option String
  reply : Option String
  latency_s : Option Nat
  audio : Option (Option String)
deriving DecidableEq, Repr

/-- chat_endpoint (main.py lines 367-415): validation, orchestrator call,
best-effort ChatLog insert, ai_query event append, response assembly and
the optional TTS block, whose audio variable is attached to the response
object unconditionally once voice was requested. -/
def chat_endpoint (w : World) (body : ChatBody) : ChatResponse × List Effect :=
  let message := pyOr body.message (pyOr body.prompt "")
  let user := body.user.getD "guest"
  let voice := body.voice
  let prefer := body.prefer.getD "auto"
  if message == "" then
    ({ status := 400, ok := false, error := some "empty_message",
       reply := none, latency_s := none, audio := none }, [])
  else
    let res := generate_ai_reply w.core.ai message user prefer
    let latency := w.core.latency
    let reply := res.1.reply.getD "Sorry — no reply available."
    let logEff : List Effect :=
      [Effect.chatLogInsert user message reply w.fails.chatLogOk]
    let ev := append_event w.fails.recEnv "ai_query"
      (PayloadV.aiQuery user message latency) w.core.ts
    let audio : Option (Option String) :=
      if voice then some (tts_result w.core.voice) else none
    let ttsEff : List Effect :=
      if voice then
        (if w.core.voice.serviceConfigured then [Effect.ttsServiceCall]
         else if w.core.voice.localPresent then [Effect.ttsLocalCall]
         else [])
      else []
    ({ status := 200, ok := true, error := none, reply := some reply,
       latency_s := some latency, audio := audio },
     res.2.map Effect.adapter ++ logEff ++ ev.2 ++ ttsEff)

/-- A failing adapter outcome. -/
def failDict : RDict := { ok := false, reply := none, error := some "err" }

/-- A successful adapter outcome with the given reply. -/
def okDict (s : String) : RDict := { ok := true, reply := some s, error := none }

/-- A fallback environment with a fixed clock reading and no crypto module. -/
def fbEnvA : FBEnv := { now := "2025-01-01 00:00:00 UTC", cryptoSummary := none }

/-- The same fallback environment one second later. -/
def fbEnvB : FBEnv := { now := "2025-01-01 00:00:01 UTC", cryptoSummary := none }

/-- Orchestrator environment in which the microservice is configured but
every adapter fails. -/
def envAllFail : AIEnv :=
  { microConfigured := true, micro := fun _ => failDict,
    localModule := none, openaiRes := failDict, fb := fbEnvA }

/-- Orchestrator environment in which the microservice is configured and
succeeding and the local module also succeeds, with distinct replies. -/
def envMicroAndLocal : AIEnv :=
  { microConfigured := true, micro := fun _ => okDict "micro reply",
    localModule := some (okDict "local reply"), openaiRes := failDict,
    fb := fbEnvA }

/-- C1: for every non-empty prompt, user and preference, generate_ai_reply
returns an ok result (the embedding is total, so it also never raises),
and when the microservice calls, the local module and the provider all
fail, the result is exactly the fallback responder text wrapped as an ok
reply. -/
theorem generate_ai_reply_always_ok (env : AIEnv) (prompt user prefer : String)
    (hp : prompt ≠ "") :
    (generate_ai_reply env prompt user prefer).1.ok = true ∧
    ((∀ n, (ai_call_microservice env n).ok = false) →
      (ai_call_local_module env).ok = false →
      (ai_call_openai env).ok = false →
      (generate_ai_reply env prompt user prefer).1 =
        { ok := true, reply := some (simple_fallback_reply env.fb prompt),
          error := none }) := by
  constructor
  · unfold generate_ai_reply
    dsimp only
    split
    · next h => exact (Bool.and_eq_true _ _ |>.mp h).2
    · split
      · next h => exact h
      · split
        · next h => exact h
        · split
          · next h => exact (Bool.and_eq_true _ _ |>.mp h).2
          · rfl
  · intro hm hl ho
    unfold generate_ai_reply
    simp [hm 0, hm 1, hl, ho]

/-- C1 witness at a concrete environment in which every adapter fails. -/
theorem generate_ai_reply_always_ok_w :
    (generate_ai_reply envAllFail "hello" "u1" "auto").1.ok = true ∧
    (generate_ai_reply envAllFail "hello" "u1" "auto").1 =
      { ok := true, reply := some (simple_fallback_reply envAllFail.fb "hello"),
        error := none } := by
  refine ⟨(generate_ai_reply_always_ok envAllFail "hello" "u1" "auto"
    (by decide)).1, ?_⟩
  exact (generate_ai_reply_always_ok envAllFail "hello" "u1" "auto"
    (by decide)).2 (fun n => rfl) rfl rfl

/-- C2 counterexample: with the microservice configured and succeeding but
the preference equal to "local", the orchestrator never consults the
microservice; it invokes and returns the local-module adapter instead, so
the claim as stated (for every prompt, with no restriction on the
preference) fails at this input. -/
theorem generate_ai_reply_micro_cex :
    envMicroAndLocal.microConfigured = true ∧
    (ai_call_microservice envMicroAndLocal 0).ok = true ∧
    (generate_ai_reply envMicroAndLocal "p" "u" "local").2 =
      [AdapterCall.localM] ∧
    ¬ ((generate_ai_reply envMicroAndLocal "p" "u" "local").1 =
          ai_call_microservice envMicroAndLocal 0 ∧
        (generate_ai_reply envMicroAndLocal "p" "u" "local").2 =
          [AdapterCall.micro]) := by
  refine ⟨rfl, rfl, rfl, ?_⟩
  intro h
  exact absurd h.2 (by decide)

/-- C2 amended: when the preference is "microservice" or "auto" (so that
the orchestrator consults the microservice first), a configured and
succeeding microservice call is returned verbatim and no other adapter is
invoked. -/
theorem generate_ai_reply_micro_precedence (env : AIEnv)
    (prompt user prefer : String)
    (hpref : prefer = "microservice" ∨ prefer = "auto")
    (hcfg : env.microConfigured = true)
    (hok : (env.micro 0).ok = true) :
    generate_ai_reply env prompt user prefer =
      (env.micro 0, [AdapterCall.micro]) := by
  unfold generate_ai_reply ai_call_microservice
  rcases hpref with h | h <;> subst h <;> simp [hcfg, hok]

/-- C2 amended, witness at a concrete environment. -/
theorem generate_ai_reply_micro_precedence_w :
    generate_ai_reply envMicroAndLocal "p" "u" "auto" =
      (envMicroAndLocal.micro 0, [AdapterCall.micro]) :=
  generate_ai_reply_micro_precedence envMicroAndLocal "p" "u" "auto"
    (Or.inr rfl) rfl rfl

/-- C3: with the microservice configured, the preference "auto", and the
first microservice attempt, the local module and the provider all failing,
the orchestrator invokes the microservice exactly once more, after the
provider and before resorting to the fallback responder; under any other
preference the microservice is invoked at most once. -/
theorem generate_ai_reply_auto_retry (env : AIEnv) (prompt user : String)
    (hcfg : env.microConfigured = true)
    (h0 : (env.micro 0).ok = false)
    (hl : (ai_call_local_module env).ok = false)
    (ho : (ai_call_openai env).ok = false) :
    ((generate_ai_reply env prompt user "auto").2 =
      [AdapterCall.micro, AdapterCall.localM, AdapterCall.openai,
        AdapterCall.micro]) ∧
    ((env.micro 1).ok = false →
      (generate_ai_reply env prompt user "auto").1 =
        { ok := true, reply := some (simple_fallback_reply env.fb prompt),
          error := none }) ∧
    (∀ prefer, prefer ≠ "auto" →
      List.count AdapterCall.micro
        (generate_ai_reply env prompt user prefer).2 ≤ 1) := by
  refine ⟨?_, ?_, ?_⟩
  · unfold generate_ai_reply ai_call_microservice
    cases h1 : (env.micro 1).ok <;> simp [hcfg, h0, hl, ho, h1]
  · intro h1
    unfold generate_ai_reply ai_call_microservice
    simp [hcfg, h0, hl, ho, h1]
  · intro prefer hp
    have hpa : (prefer == "auto") = false := by
      simpa using hp
    unfold generate_ai_reply ai_call_microservice
    cases hb : (prefer == "microservice") <;>
      simp [hcfg, h0, hl, ho, hpa, hb]

/-- C3 witness at a concrete all-failing environment. -/
theorem generate_ai_reply_auto_retry_w :
    ((generate_ai_reply envAllFail "p" "u" "auto").2 =
      [AdapterCall.micro, AdapterCall.localM, AdapterCall.openai,
        AdapterCall.micro]) ∧
    ((generate_ai_reply envAllFail "p" "u" "auto").1 =
      { ok := true, reply := some (simple_fallback_reply envAllFail.fb "p"),
        error := none }) ∧
    List.count AdapterCall.micro
      (generate_ai_reply envAllFail "p" "u" "microservice").2 ≤ 1 := by
  refine ⟨(generate_ai_reply_auto_retry envAllFail "p" "u" rfl rfl rfl rfl).1,
    (generate_ai_reply_auto_retry envAllFail "p" "u" rfl rfl rfl rfl).2.1 rfl,
    (generate_ai_reply_auto_retry envAllFail "p" "u" rfl rfl rfl rfl).2.2
      "microservice" (by decide)⟩

/-- C4 counterexample: with the physical file append failing, append_event
still returns normally (no exception reaches the caller, the Except
component is ok) and proceeds to the database insert — the failure of the
synchronous file write is swallowed inside append_event_file, refuting the
claim that the file write must succeed or the caller is informed. -/
theorem append_event_file_failure_cex :
    (append_event { fileOk := false, dbOk := true } "x" (PayloadV.raw "p") 0).1
        = Except.ok () ∧
    (append_event { fileOk := false, dbOk := true } "x" (PayloadV.raw "p") 0).2
        = [Effect.fileAppend
             { type := "x", payload := PayloadV.raw "p", ts := 0 } false,
           Effect.dbEventInsert "x" (PayloadV.raw "p") true] :=
  ⟨rfl, rfl⟩

/-- C4 amended: append_event writes the line with fields type, payload, ts
to the append-only log file before attempting the database insert, and a
failure of either sink is swallowed and only logged — the call always
returns normally, with the file append first in the trace. -/
theorem append_event_spec (re : RecEnv) (etype : String) (payload : PayloadV)
    (ts : Nat) :
    append_event re etype payload ts =
      (Except.ok (),
       [Effect.fileAppend { type := etype, payload := payload, ts := ts }
          re.fileOk,
        Effect.dbEventInsert etype payload re.dbOk]) :=
  rfl

/-- C5 counterexample: the prompt "time" makes the fallback responder
interpolate the current clock reading, so two runs at different times
return different strings — the output is neither deterministic nor a
function of the lowercased prompt alone. -/
theorem simple_fallback_reply_time_cex :
    simple_fallback_reply fbEnvA "time" ≠ simple_fallback_reply fbEnvB "time" := by
  decide

/-- C5 amended: the fallback responder is deterministic and depends only on
the lowercased prompt for every prompt whose lowercasing contains neither
the substring time nor the substring crypto; the time branch reads the
server clock and the crypto branch consults the optional crypto module. -/
theorem simple_fallback_reply_pure (e1 e2 : FBEnv) (p1 p2 : String)
    (hlow : strLower p1 = strLower p2)
    (ht : strContains (strLower p1) "time" = false)
    (hc : strContains (strLower p1) "crypto" = false) :
    simple_fallback_reply e1 p1 = simple_fallback_reply e2 p2 := by
  unfold simple_fallback_reply
  rw [← hlow]
  simp [ht, hc]

/-- C5 amended, witness: equal lowercasings away from the time and crypto
branches give equal replies across different environments. -/
theorem simple_fallback_reply_pure_w :
    simple_fallback_reply fbEnvA "HELLO there" =
      simple_fallback_reply fbEnvB "hello THERE" :=
  simple_fallback_reply_pure fbEnvA fbEnvB "HELLO there" "hello THERE"
    (by decide) (by decide) (by decide)

/-- C6 counterexample: the prompt containing hi as a substring but not
equal to hi after stripping falls through to the default branch — the
source compares the stripped prompt for equality with hi and hey instead
of testing substring containment. -/
theorem simple_fallback_reply_hi_cex :
    strContains (strLower "hi there") "hi" = true ∧
    simple_fallback_reply fbEnvA "hi there" = "Interesting — tell me more." ∧
    simple_fallback_reply fbEnvA "hi there" ≠ greetingText :=
  ⟨by decide, by decide, by decide⟩

/-- C6 amended: the greeting branch is selected when the lowercased prompt
contains hello as a substring or equals hi or hey after stripping; when no
keyword of the cascade applies the generic acknowledgement is returned;
and the prompt hello yields exactly the canned greeting string. -/
theorem simple_fallback_reply_branches (env : FBEnv) (prompt : String) :
    ((strContains (strLower prompt) "hello" = true ∨
        strStrip (strLower prompt) = "hi" ∨
        strStrip (strLower prompt) = "hey") →
      simple_fallback_reply env prompt = greetingText) ∧
    (strContains (strLower prompt) "hello" = false →
      strStrip (strLower prompt) ≠ "hi" →
      strStrip (strLower prompt) ≠ "hey" →
      strContains (strLower prompt) "time" = false →
      strContains (strLower prompt) "health" = false →
      strContains (strLower prompt) "crypto" = false →
      simple_fallback_reply env prompt = "Interesting — tell me more.") ∧
    simple_fallback_reply env "hello" = greetingText := by
  refine ⟨?_, ?_, ?_⟩
  · intro h
    unfold simple_fallback_reply
    rcases h with h | h | h <;> simp [h]
  · intro h1 h2 h3 h4 h5 h6
    have b2 : (strStrip (strLower prompt) == "hi") = false := by simpa using h2
    have b3 : (strStrip (strLower prompt) == "hey") = false := by simpa using h3
    unfold simple_fallback_reply
    simp [h1, b2, b3, h4, h5, h6]
  · unfold simple_fallback_reply
    have h : strContains (strLower "hello") "hello" = true := by decide
    simp [h]

/-- C6 amended, witness exercising the greeting branch both ways and the
default branch. -/
theorem simple_fallback_reply_branches_w :
    simple_fallback_reply fbEnvA "hello" = greetingText ∧
    simple_fallback_reply fbEnvA "hi" = greetingText ∧
    simple_fallback_reply fbEnvA "xyz" = "Interesting — tell me more." :=
  ⟨(simple_fallback_reply_branches fbEnvA "q").2.2,
   (simple_fallback_reply_branches fbEnvA "hi").1 (Or.inr (Or.inl (by decide))),
   (simple_fallback_reply_branches fbEnvA "xyz").2.1 (by decide) (by decide)
     (by decide) (by decide) (by decide) (by decide)⟩

/-- The effective message of a chat body: the message field, else the
prompt field, else the empty string, with Python falsiness (main.py
line 370). -/
def effMessage (body : ChatBody) : String :=
  pyOr body.message (pyOr body.prompt "")

/-- The reply string the handler extracts from the orchestrator result
(main.py line 381). -/
def chatReply (w : World) (body : ChatBody) : String :=
  (generate_ai_reply w.core.ai (effMessage body) (body.user.getD "guest")
    (body.prefer.getD "auto")).1.reply.getD "Sorry — no reply available."

/-- The TTS collaborator calls issued by the voice block. -/
def ttsEffects (w : World) (body : ChatBody) : List Effect :=
  if body.voice then
    (if w.core.voice.serviceConfigured then [Effect.ttsServiceCall]
     else if w.core.voice.localPresent then [Effect.ttsLocalCall]
     else [])
  else []

/-- Recognizes the ChatLog insert attempt in an effect trace. -/
def isChatLogInsert : Effect → Bool
  | Effect.chatLogInsert _ _ _ _ => true
  | Effect.adapter _ => false
  | Effect.fileAppend _ _ => false
  | Effect.dbEventInsert _ _ _ => false
  | Effect.ttsServiceCall => false
  | Effect.ttsLocalCall => false

/-- Recognizes an append_event call of type ai_query by its file line. -/
def isAiQueryFileAppend : Effect → Bool
  | Effect.fileAppend line _ => line.type == "ai_query"
  | Effect.adapter _ => false
  | Effect.chatLogInsert _ _ _ _ => false
  | Effect.dbEventInsert _ _ _ => false
  | Effect.ttsServiceCall => false
  | Effect.ttsLocalCall => false

theorem countP_map_adapter (p : Effect → Bool)
    (h : ∀ c, p (Effect.adapter c) = false) (l : List AdapterCall) :
    (l.map Effect.adapter).countP p = 0 := by
  induction l with
  | nil => rfl
  | cons a t ih => simp [List.countP_cons, h, ih]

theorem countP_ttsEffects (p : Effect → Bool)
    (h1 : p Effect.ttsServiceCall = false)
    (h2 : p Effect.ttsLocalCall = false) (w : World) (body : ChatBody) :
    (ttsEffects w body).countP p = 0 := by
  unfold ttsEffects
  cases hv : body.voice
  · simp
  · cases hs : w.core.voice.serviceConfigured
    · cases hl : w.core.voice.localPresent <;>
        simp [List.countP_cons, h1, h2]
    · simp [List.countP_cons, h1]

/-- Closed form of chat_endpoint on a request that passes validation. -/
theorem chat_endpoint_run (w : World) (body : ChatBody)
    (hm : (effMessage body == "") = false) :
    chat_endpoint w body =
      ({ status := 200, ok := true, error := none,
         reply := some (chatReply w body),
         latency_s := some w.core.latency,
         audio := if body.voice then some (tts_result w.core.voice) else none },
       (generate_ai_reply w.core.ai (effMessage body) (body.user.getD "guest")
          (body.prefer.getD "auto")).2.map Effect.adapter ++
       (Effect.chatLogInsert (body.user.getD "guest") (effMessage body)
          (chatReply w body) w.fails.chatLogOk ::
        Effect.fileAppend
          { type := "ai_query",
            payload := PayloadV.aiQuery (body.user.getD "guest")
              (effMessage body) w.core.latency,
            ts := w.core.ts } w.fails.recEnv.fileOk ::
        Effect.dbEventInsert "ai_query"
          (PayloadV.aiQuery (body.user.getD "guest") (effMessage body)
            w.core.latency) w.fails.recEnv.dbOk ::
        ttsEffects w body)) := by
  unfold chat_endpoint chatReply ttsEffects
  rw [show pyOr body.message (pyOr body.prompt "") = effMessage body from rfl]
  simp [hm, append_event, append_event_file, append_event_db]

/-- A TTS environment with no voice service and no local voice module. -/
def voiceEnvNone : VoiceEnv :=
  { serviceConfigured := false, serviceAudio := none,
    localPresent := false, localAudio := none }

/-- A request world with all adapters failing, no TTS collaborators, and
all persistence succeeding. -/
def world0 : World :=
  { core := { ai := envAllFail, voice := voiceEnvNone, latency := 0, ts := 0 },
    fails := { chatLogOk := true, recEnv := { fileOk := true, dbOk := true } } }

/-- Failure flags with every persistence sink failing. -/
def failsBad : FailFlags :=
  { chatLogOk := false, recEnv := { fileOk := false, dbOk := false } }

/-- A body whose message key is absent and whose prompt key is empty. -/
def bodyEmpty : ChatBody :=
  { message := none, prompt := some "", user := none, voice := false,
    prefer := none }

/-- A plain hello request. -/
def bodyHello : ChatBody :=
  { message := some "hello", prompt := none, user := some "u1", voice := false,
    prefer := none }

/-- A hello request with voice requested. -/
def bodyVoice : ChatBody :=
  { message := some "hello", prompt := none, user := none, voice := true,
    prefer := none }

/-- A request world whose voice service is configured and returns an audio
reference. -/
def voiceEnvSvc : VoiceEnv :=
  { serviceConfigured := true, serviceAudio := some "a.mp3",
    localPresent := false, localAudio := none }

def worldVoiceOk : World :=
  { core := { ai := envAllFail, voice := voiceEnvSvc, latency := 0, ts := 0 },
    fails := { chatLogOk := true, recEnv := { fileOk := true, dbOk := true } } }

/-- An admin request carrying a wrong bearer token. -/
def reqBad : AdminReq := { authHeader := "Bearer nope", adminTokenArg := "" }

/-- C7: when both the message and the prompt field are empty or absent the
chat endpoint answers 400 with the empty_message error and performs no
orchestrator call, no ChatLog insert and no event append (empty effect
trace); a body whose message field holds a non-empty string is never
rejected with 400. -/
theorem chat_endpoint_empty_message :
    (∀ (w : World) (body : ChatBody),
      (body.message = none ∨ body.message = some "") →
      (body.prompt = none ∨ body.prompt = some "") →
      chat_endpoint w body =
        ({ status := 400, ok := false, error := some "empty_message",
           reply := none, latency_s := none, audio := none }, [])) ∧
    (∀ (w : World) (body : ChatBody) (m : String),
      body.message = some m → m ≠ "" →
      (chat_endpoint w body).1.status ≠ 400) := by
  constructor
  · intro w body hm hp
    have hme : (effMessage body == "") = true := by
      unfold effMessage pyOr
      rcases hm with h | h <;> rcases hp with h2 | h2 <;> simp [h, h2]
    unfold chat_endpoint
    rw [show pyOr body.message (pyOr body.prompt "") = effMessage body from rfl]
    simp [hme]
  · intro w body m hm hne
    have hmb : (m == "") = false := by simpa using hne
    have hb : (effMessage body == "") = false := by
      unfold effMessage pyOr
      simp [hm, hmb]
    rw [chat_endpoint_run w body hb]
    simp

/-- C7 witness: a concrete empty body is rejected with 400 and an empty
trace; a concrete hello body is not rejected. -/
theorem chat_endpoint_empty_message_w :
    chat_endpoint world0 bodyEmpty =
      ({ status := 400, ok := false, error := some "empty_message",
         reply := none, latency_s := none, audio := none }, []) ∧
    (chat_endpoint world0 bodyHello).1.status ≠ 400 :=
  ⟨chat_endpoint_empty_message.1 world0 bodyEmpty (Or.inl rfl) (Or.inr rfl),
   chat_endpoint_empty_message.2 world0 bodyHello "hello" rfl (by decide)⟩

/-- C8: every chat request that passes validation produces exactly one
ChatLog insert attempt and at least one ai_query event append attempt, and
the response returned to the client does not depend on the persistence
failure flags. -/
theorem chat_endpoint_persistence (core : WorldCore) (f1 f2 : FailFlags)
    (body : ChatBody) (hm : effMessage body ≠ "") :
    ((chat_endpoint { core := core, fails := f1 } body).2.countP
        isChatLogInsert = 1) ∧
    (1 ≤ (chat_endpoint { core := core, fails := f1 } body).2.countP
        isAiQueryFileAppend) ∧
    ((chat_endpoint { core := core, fails := f1 } body).1 =
      (chat_endpoint { core := core, fails := f2 } body).1) := by
  have hb : (effMessage body == "") = false := by simpa using hm
  rw [chat_endpoint_run { core := core, fails := f1 } body hb,
    chat_endpoint_run { core := core, fails := f2 } body hb]
  refine ⟨?_, ?_, rfl⟩
  · simp [List.countP_append, List.countP_cons,
      countP_map_adapter isChatLogInsert (fun c => rfl),
      countP_ttsEffects isChatLogInsert rfl rfl, isChatLogInsert]
  · simp [List.countP_append, List.countP_cons,
      countP_map_adapter isAiQueryFileAppend (fun c => rfl),
      countP_ttsEffects isAiQueryFileAppend rfl rfl, isAiQueryFileAppend]

/-- C8 witness at a concrete request and two concrete failure-flag
assignments, one fully succeeding and one fully failing. -/
theorem chat_endpoint_persistence_w :
    ((chat_endpoint world0 bodyHello).2.countP isChatLogInsert = 1) ∧
    (1 ≤ (chat_endpoint world0 bodyHello).2.countP isAiQueryFileAppend) ∧
    ((chat_endpoint world0 bodyHello).1 =
      (chat_endpoint { core := world0.core, fails := failsBad } bodyHello).1) :=
  chat_endpoint_persistence world0.core world0.fails failsBad bodyHello
    (by decide)

/-- C9 counterexample: with voice requested and both TTS collaborators
unavailable (the TTS attempt yields no audio reference), the response
object still carries the audio key, with a null value — the audio field is
not omitted as claimed. -/
theorem chat_endpoint_audio_cex :
    tts_result world0.core.voice = none ∧
    (chat_endpoint world0 bodyVoice).1.audio = some none :=
  ⟨rfl, by decide⟩

/-- C9 amended: when voice is requested the handler always attaches the
audio key to the response; a TTS failure is swallowed by attaching a null
value, and a successful TTS call attaches the returned audio reference. -/
theorem chat_endpoint_audio_field (w : World) (body : ChatBody)
    (hm : effMessage body ≠ "") (hv : body.voice = true) :
    (chat_endpoint w body).1.audio = some (tts_result w.core.voice) := by
  have hb : (effMessage body == "") = false := by simpa using hm
  rw [chat_endpoint_run w body hb]
  simp [hv]

/-- C9 amended, witness: a configured and succeeding voice service yields
the audio key with the returned reference. -/
theorem chat_endpoint_audio_field_w :
    (chat_endpoint worldVoiceOk bodyVoice).1.audio = some (some "a.mp3") :=
  (chat_endpoint_audio_field worldVoiceOk bodyVoice (by decide) rfl).trans
    (by decide)

/-- C10: with an empty configured admin token every request runs the
wrapped handler, whatever credentials it carries; with a non-empty
configured token a request whose extracted token mismatches is rejected
with 401 unauthorized. -/
theorem require_admin_spec :
    (∀ req : AdminReq, require_admin "" req = AdminResult.runHandler) ∧
    (∀ (cfg : String) (req : AdminReq), cfg ≠ "" → admin_token_of req ≠ cfg →
      require_admin cfg req = AdminResult.reject 401 false "unauthorized") := by
  constructor
  · intro req
    unfold require_admin
    simp
  · intro cfg req hc ht
    have hc2 : (cfg == "") = false := by simpa using hc
    have ht2 : (admin_token_of req != cfg) = true := by simpa using ht
    unfold require_admin
    simp [hc2, ht2]

/-- C10 witness: a concrete request with a wrong bearer token runs the
handler under an empty configured token and is rejected under a non-empty
one. -/
theorem require_admin_spec_w :
    require_admin "" reqBad = AdminResult.runHandler ∧
    require_admin "secret" reqBad = AdminResult.reject 401 false "unauthorized" :=
  ⟨require_admin_spec.1 reqBad,
   require_admin_spec.2 "secret" reqBad (by decide) (by decide)⟩

end NeuraAI
